import Mathlib

/-!
Verification of the opencore-identity authorization and authentication core.

The TypeScript sources are shallowly embedded as Lean definitions:
JavaScript `Set` values become `Finset String` (all claims about
permission sets are order-insensitive and duplicate-free), `Date`
timestamps become `Int` epoch milliseconds, JavaScript `Map` objects
become association lists with unique keys maintained by construction,
nullable values become `Option`, and asynchronous store calls become
explicit state passing over lists of account records.  Functions keep
the names of the methods they embed.
-/
/-! ## Permission merge engine

Embedded from `IdentityPrincipalProvider.mergePermissions`
(src/providers/principal/local-principal.provider.ts) and
`LocalPrincipalProvider.combinePermissions` /
`AccountService.combinePermissions`
(src/services/principal/local-principal.provider.ts and the account
service draft), which fold the custom-permission overrides over a
`Set` seeded with the role base permissions. -/
/-- JavaScript `s.startsWith(pre)`, written on the character list so
that proofs can evaluate it by kernel reduction (the library
`String.startsWith` is defined by well-founded recursion on byte
positions, which does not reduce). -/
def jsStartsWith (s pre : String) : Bool :=
  pre.data.isPrefixOf s.data

/-- JavaScript `s.substring(1)` / `s.slice(1)` / `s.drop 1`, written on
the character list for the same reason. -/
def jsDropOne (s : String) : String :=
  ⟨s.data.drop 1⟩

/-- One iteration of the loop body of `mergePermissions`: overrides
starting with `-` are deleted from the set (after stripping the dash),
overrides starting with `+` are added with the plus stripped, and any
other override is added literally. -/
def mergeStep (perms : Finset String) (override : String) : Finset String :=
  if jsStartsWith override "-" then perms.erase (jsDropOne override)
  else if jsStartsWith override "+" then insert (jsDropOne override) perms
  else insert override perms

/-- Embeds `IdentityPrincipalProvider.mergePermissions(base, overrides)`:
`new Set(base)` is `base.toFinset`, the `for` loop is a left fold of
`mergeStep`, and the final `Array.from(perms)` listing is modeled by the
set itself (every claim about the result is a set-level statement). -/
def mergePermissions (base : List String) (overrides : List String) : Finset String :=
  overrides.foldl mergeStep base.toFinset

/-- One iteration of the loop body of `combinePermissions` in the
services drafts: only `-`-prefixed entries are treated specially (as
removals); every other entry, including `+`-prefixed ones, is added
literally. -/
def combineStep (base : Finset String) (perm : String) : Finset String :=
  if jsStartsWith perm "-" then base.erase (jsDropOne perm)
  else insert perm base

/-- Embeds `combinePermissions(role, customPerms)` from
`LocalPrincipalProvider` / `AccountService`: the base set is
`new Set(role?.permissions ?? [])` and the loop folds `combineStep`.
The role argument is kept abstract as the base permission list of the
(possibly null) role. -/
def combinePermissions (rolePerms : Option (List String)) (customPerms : List String) :
    Finset String :=
  customPerms.foldl combineStep (rolePerms.getD []).toFinset

/-! ### Characterization of the folds

Both loop bodies have the shape "look at one key, either insert it or
erase it"; the helpers below factor that shape out so that a single
membership lemma covers both engines. -/
/-- The permission string affected by a `mergePermissions` override. -/
def mergeKey (e : String) : String :=
  if jsStartsWith e "-" then jsDropOne e
  else if jsStartsWith e "+" then jsDropOne e
  else e

/-- The permission string affected by a `combinePermissions` entry. -/
def combineKey (e : String) : String :=
  if jsStartsWith e "-" then jsDropOne e else e

/-- Whether an override grants (`true`) or revokes (`false`) its key;
the test is the same for both engines: only `-`-prefixed entries revoke. -/
def opAdds (e : String) : Bool :=
  !(jsStartsWith e "-")

/-- Generic "insert or erase one key" step. -/
def applyOp (key : String → String) (B : Finset String) (e : String) : Finset String :=
  if opAdds e then insert (key e) B else B.erase (key e)

/-- The last entry of `C` whose key is `p`, if any (entries later in the
list take precedence). -/
def lastOp (key : String → String) (p : String) : List String → Option String
  | [] => none
  | e :: rest =>
    match lastOp key p rest with
    | some r => some r
    | none => if key e == p then some e else none

/-! ## Account and role records

Timestamps are epoch milliseconds (`Int`).  `PAccount` embeds the
`IdentityAccount` entity of the provider family
(src/entities/role.entity.ts); `SAccount` / `SRole` embed the
`Account` / `Role` entities of the services family. -/
structure PAccount where
  id : Nat
  identifier : Option String
  roleId : Option String
  username : Option String
  passwordHash : Option String
  customPermissions : List String
  isBanned : Bool
  banReason : Option String
  banExpiresAt : Option Int
deriving DecidableEq

structure SRole where
  id : Nat
  name : String
  displayName : String
  rank : Int
  permissions : List String
  isDefault : Bool
deriving DecidableEq

structure SAccount where
  id : Nat
  linkedId : Option String
  username : Option String
  roleId : Option Nat
  customPermissions : List String
  banned : Bool
  banReason : Option String
  banExpires : Option Int
deriving DecidableEq

/-! ## Ban policy -/
/-- Embeds `CredentialsAuthProvider.isBanned(account)`
(src/providers/auth/credentials-auth.provider.ts): not banned when the
flag is off; otherwise not banned only when an expiry timestamp exists
and is strictly before the current time (`banExpiresAt < new Date()`);
banned in every other case. -/
def credentialsIsBanned (account : PAccount) (now : Int) : Bool :=
  if !account.isBanned then false
  else
    match account.banExpiresAt with
    | some t => if t < now then false else true
    | none => true

/-- Embeds `AccountService.isBanExpired(account)` (the account service
draft): an expired ban requires the banned flag, a non-null expiry, and
`banExpires.getTime() <= Date.now()`. -/
def isBanExpired (account : SAccount) (now : Int) : Bool :=
  if !account.banned then false
  else
    match account.banExpires with
    | none => false
    | some t => decide (t ≤ now)

/-! ## TTL cache

Embeds `MemoryCacheService` (the in-memory cache draft).  The `Map` is
an association list whose keys are unique by construction (`set`
removes any previous binding before prepending the new one). -/
structure MCacheEntry (α : Type) where
  value : α
  expiresAt : Int
deriving DecidableEq

/-- Embeds `MemoryCacheService.get(key)`: a missing entry yields `null`;
an entry with `Date.now() > expiresAt` is deleted and `null` is
returned; otherwise the stored value is returned.  The pair carries the
cache state after the call. -/
def mcGet {α : Type} (cache : List (String × MCacheEntry α)) (key : String) (now : Int) :
    Option α × List (String × MCacheEntry α) :=
  match cache.lookup key with
  | none => (none, cache)
  | some entry =>
    if now > entry.expiresAt then (none, cache.filter (fun kv => kv.1 != key))
    else (some entry.value, cache)

/-- Embeds `MemoryCacheService.set(key, value, ttlMs)`: the expiry is
`Date.now() + (ttlMs ?? 300000)` and any previous binding of the key is
overwritten. -/
def mcSet {α : Type} (cache : List (String × MCacheEntry α)) (key : String) (value : α)
    (ttlMs : Option Int) (now : Int) : List (String × MCacheEntry α) :=
  (key, ⟨value, now + ttlMs.getD 300000⟩) :: cache.filter (fun kv => kv.1 != key)

/-! ## Provider-family principal resolver

Embeds `IdentityPrincipalProvider`
(src/providers/principal/local-principal.provider.ts) and the caching
shell of `ApiPrincipalProvider`
(src/providers/principal/api-principal.provider.ts).  The abstract
`IdentityStore.findByLinkedId` is a lookup function supplied by the
environment; `RoleStore` is a record of its two read operations.  Each
resolver result carries the number of store reads (account-store and
role-store calls together) it performed. -/
structure IdentityRole where
  id : String
  rank : Int
  permissions : List String
  displayName : Option String
deriving DecidableEq

structure Principal where
  id : String
  name : String
  rank : Int
  permissions : Finset String
  metaAccountId : Nat
  metaRoleId : String
deriving DecidableEq

/-- The `defaultRole` configuration option: either a role id (string)
or an inline role object, which the setup code registers under the
static key `default_auto`. -/
inductive DefaultRoleRef where
  | byId (s : String)
  | inlineRole
deriving DecidableEq

structure PrincipalOptions where
  mode : String
  roles : List (String × IdentityRole)
  defaultRole : Option DefaultRoleRef
  cacheTtl : Option Int
deriving DecidableEq

/-- State of an attached `RoleStore`: `findById` data and the
`getDefaultRole` answer. -/
structure RoleStoreState where
  roles : List (String × IdentityRole)
  defaultRole : Option IdentityRole
deriving DecidableEq

/-- JavaScript `a || d` for an optional string: `undefined`, `null` and
the empty string all fall through to the default. -/
def jsOrS (s : Option String) (d : String) : String :=
  match s with
  | some v => if v = "" then d else v
  | none => d

/-- JavaScript truthiness filter for an optional string: `undefined`
and `""` both count as absent. -/
def nonEmptyStr (s : Option String) : Option String :=
  match s with
  | some v => if v = "" then none else some v
  | none => none

/-- Embeds `IdentityPrincipalProvider.resolvePrincipal(linkedId)`.
Returns the resolved principal (or `none`) together with the number of
store reads performed: one for `findByLinkedId`, plus one for each
`roleStore.findById` / `roleStore.getDefaultRole` call. -/
def resolvePrincipal (opts : PrincipalOptions) (findByLinkedId : String → Option PAccount)
    (rs : Option RoleStoreState) (linkedId : String) : Option Principal × Nat :=
  match findByLinkedId linkedId with
  | none => (none, 1)
  | some account =>
    let step1 : Option IdentityRole × Nat :=
      match account.roleId with
      | some rid =>
        if rid = "" then (none, 0)
        else if opts.mode = "roles" then (opts.roles.lookup rid, 0)
        else
          match rs with
          | some store => (store.roles.lookup rid, 1)
          | none => (none, 0)
      | none => (none, 0)
    let step2 : Option IdentityRole × Nat :=
      match step1.1 with
      | some r => (some r, 0)
      | none =>
        match opts.defaultRole with
        | none => (none, 0)
        | some dr =>
          if dr = DefaultRoleRef.byId "" then (none, 0)
          else
            let fromStatic : Option IdentityRole :=
              match dr with
              | DefaultRoleRef.byId s => opts.roles.lookup s
              | DefaultRoleRef.inlineRole => opts.roles.lookup "default_auto"
            match fromStatic with
            | some r => (some r, 0)
            | none =>
              match rs with
              | some store =>
                if opts.mode = "db" then (store.defaultRole, 1) else (none, 0)
              | none => (none, 0)
    let reads := 1 + step1.2 + step2.2
    match step2.1 with
    | none => (none, reads)
    | some role =>
      (some
        { id := linkedId
          name := jsOrS role.displayName role.id
          rank := role.rank
          permissions := mergePermissions role.permissions account.customPermissions
          metaAccountId := account.id
          metaRoleId := role.id }, reads)

/-- Cache entry of the principal providers: a resolved principal and
its absolute expiry. -/
structure PCacheEntry where
  principal : Principal
  expiresAt : Int
deriving DecidableEq

/-- The cache probe at the top of `getPrincipal`: a hit requires an
entry for the client whose `expiresAt` is strictly greater than the
current time. -/
def cacheHit (cache : List (Nat × PCacheEntry)) (clientId : Nat) (now : Int) :
    Option Principal :=
  match cache.lookup clientId with
  | some e => if e.expiresAt > now then some e.principal else none
  | none => none

/-- Embeds `IdentityPrincipalProvider.getPrincipal(player)`.  Returns
the result, the cache after the call, and the number of store reads
performed.  A fresh resolution is cached (overwriting any stale entry
for the client) only when it produced a principal. -/
def getPrincipal (opts : PrincipalOptions) (findByLinkedId : String → Option PAccount)
    (rs : Option RoleStoreState) (cache : List (Nat × PCacheEntry)) (clientId : Nat)
    (accountID : Option String) (now : Int) :
    Option Principal × List (Nat × PCacheEntry) × Nat :=
  match cacheHit cache clientId now with
  | some p => (some p, cache, 0)
  | none =>
    match nonEmptyStr accountID with
    | none => (none, cache, 0)
    | some linkedId =>
      match resolvePrincipal opts findByLinkedId rs linkedId with
      | (some p, reads) =>
        (some p,
         (clientId, ⟨p, now + opts.cacheTtl.getD 300000⟩) ::
           cache.filter (fun kv => kv.1 != clientId),
         reads)
      | (none, reads) => (none, cache, reads)

/-- Embeds the caching shell of `ApiPrincipalProvider.getPrincipal`.
The outcome of the HTTP `fetchPrincipal` call is an input (`fetched`);
the shell is the same cache-first logic, and it stores only a non-null
fetched principal. -/
def apiGetPrincipal (cache : List (Nat × PCacheEntry)) (clientId : Nat)
    (accountID : Option String) (now : Int) (ttl : Option Int) (fetched : Option Principal) :
    Option Principal × List (Nat × PCacheEntry) :=
  match cacheHit cache clientId now with
  | some p => (some p, cache)
  | none =>
    match nonEmptyStr accountID with
    | none => (none, cache)
    | some _ =>
      match fetched with
      | none => (none, cache)
      | some p =>
        (some p,
         (clientId, ⟨p, now + ttl.getD 300000⟩) :: cache.filter (fun kv => kv.1 != clientId))

/-! ## Credentials authentication strategy

Embeds `CredentialsAuthProvider`
(src/providers/auth/credentials-auth.provider.ts, the draft extending
`AuthService`).  Password hashing and verification (`bcrypt`) are
environment functions.  The account store is a list of records;
`findByUsername` is a linear search.  `authenticate` performs no store
write, so it returns only the `AuthResult`; `register` returns the
result together with the store after the call. -/
structure AuthResult where
  success : Bool
  accountID : Option String
  error : Option String
  isNewAccount : Option Bool
  account : Option PAccount
deriving DecidableEq

/-- Store lookup used by the credentials strategy. -/
def findByUsername (accounts : List PAccount) (username : String) : Option PAccount :=
  accounts.find? (fun a => a.username == some username)

/-- Embeds `CredentialsAuthProvider.authenticate(player, credentials)`:
missing or empty username or password fail fast; an unknown username
fails with `Account not found`; a falsy stored hash fails with
`Account has no password set`; `bcrypt.compare` failure yields
`Invalid credentials`; only then is the ban policy consulted; success
links the account and returns its id. -/
def credAuthenticate (accounts : List PAccount) (usernameArg passwordArg : Option String)
    (verify : String → String → Bool) (now : Int) : AuthResult :=
  match nonEmptyStr usernameArg, nonEmptyStr passwordArg with
  | some username, some password =>
    match findByUsername accounts username with
    | none =>
      { success := false, accountID := none, error := some "Account not found",
        isNewAccount := none, account := none }
    | some account =>
      match nonEmptyStr account.passwordHash with
      | none =>
        { success := false, accountID := none, error := some "Account has no password set",
          isNewAccount := none, account := none }
      | some passwordHash =>
        if !(verify password passwordHash) then
          { success := false, accountID := none, error := some "Invalid credentials",
            isNewAccount := none, account := none }
        else if credentialsIsBanned account now then
          { success := false, accountID := none,
            error := some (account.banReason.getD "Account is banned"),
            isNewAccount := none, account := none }
        else
          { success := true, accountID := some (toString account.id), error := none,
            isNewAccount := none, account := some account }
  | _, _ =>
    { success := false, accountID := none,
      error := some "Username and password are required", isNewAccount := none,
      account := none }

/-- Identifier record supplied by `player.getPlayerIdentifiers()`. -/
structure PlayerIdentifier where
  idType : String
  value : String
deriving DecidableEq

/-- Embeds `CredentialsAuthProvider.register(player, credentials)`: an
existing username fails with `Username already taken` and leaves the
store untouched; otherwise the password is hashed, a primary identifier
is chosen (`license` identifier, else the first identifier, else
`internal:username`), and an account is created with the default role.
The store assigns the fresh internal id `freshId`. -/
def credRegister (accounts : List PAccount) (usernameArg passwordArg : Option String)
    (hash : String → String) (identifiers : List PlayerIdentifier)
    (defaultRole : IdentityRole) (freshId : Nat) : AuthResult × List PAccount :=
  match nonEmptyStr usernameArg, nonEmptyStr passwordArg with
  | some username, some password =>
    match findByUsername accounts username with
    | some _ =>
      ({ success := false, accountID := none, error := some "Username already taken",
         isNewAccount := none, account := none }, accounts)
    | none =>
      let passwordHash := hash password
      let primaryIdentifier :=
        jsOrS ((identifiers.find? (fun i => i.idType == "license")).map PlayerIdentifier.value)
          (jsOrS (identifiers.head?.map PlayerIdentifier.value) ("internal:" ++ username))
      let account : PAccount :=
        { id := freshId, identifier := some primaryIdentifier,
          roleId := some defaultRole.id, username := some username,
          passwordHash := some passwordHash, customPermissions := [],
          isBanned := false, banReason := none, banExpiresAt := none }
      ({ success := true, accountID := some (toString freshId), error := none,
         isNewAccount := some true, account := some account }, accounts ++ [account])
  | _, _ =>
    ({ success := false, accountID := none,
       error := some "Username and password are required", isNewAccount := none,
       account := none }, accounts)

/-! ## Local authentication strategy

Embeds `LocalAuthProvider.authenticateLocally(player)`
(src/types/index.ts, the draft using `getPlayerIdentifiers`).  The
store is a list of `PAccount`; `IdentityStore.setBan(id, banned)` is a
pointwise update of the banned flag (reason and expiry handling is left
to the concrete store by the contract). -/
/-- Embeds `IdentityStore.setBan(id, banned)` on the list store. -/
def setBan (accounts : List PAccount) (id : Nat) (banned : Bool) : List PAccount :=
  accounts.map (fun a => if a.id == id then { a with isBanned := banned } else a)

structure LocalAuthOptions where
  primaryIdentifier : Option String
  autoCreate : Option Bool
deriving DecidableEq

/-- The tail of `authenticateLocally` after the account is in hand: an
active ban fails; a ban with an expiry strictly in the past triggers
`setBan(id, false)` and the flow continues to success; otherwise
success links the account.  On success the in-memory account object
(still carrying the stale ban flag after a write-back) is returned. -/
def localAuthFinish (accounts : List PAccount) (account : PAccount) (now : Int)
    (isNew : Bool) : AuthResult × List PAccount :=
  if account.isBanned then
    match account.banExpiresAt with
    | some t =>
      if t < now then
        ({ success := true, accountID := some (toString account.id), error := none,
           isNewAccount := some isNew, account := some account },
         setBan accounts account.id false)
      else
        ({ success := false, accountID := none,
           error := some (account.banReason.getD "Account is banned"),
           isNewAccount := none, account := none }, accounts)
    | none =>
      ({ success := false, accountID := none,
         error := some (account.banReason.getD "Account is banned"),
         isNewAccount := none, account := none }, accounts)
  else
    ({ success := true, accountID := some (toString account.id), error := none,
       isNewAccount := some isNew, account := some account }, accounts)

/-- Embeds `LocalAuthProvider.authenticateLocally(player)`: find the
primary identifier among the player identifiers; look the account up by
its value; if absent, fail when auto-create is disabled, else create a
fresh unbanned account; finally run the ban gate. -/
def authenticateLocally (opts : LocalAuthOptions) (identifiers : List PlayerIdentifier)
    (accounts : List PAccount) (freshId : Nat) (now : Int) : AuthResult × List PAccount :=
  let primaryType := jsOrS opts.primaryIdentifier "license"
  match identifiers.find? (fun i => i.idType == primaryType) with
  | none =>
    ({ success := false, accountID := none,
       error := some ("Missing required identifier: " ++ primaryType),
       isNewAccount := none, account := none }, accounts)
  | some identifierFound =>
    match accounts.find? (fun a => a.identifier == some identifierFound.value) with
    | some account => localAuthFinish accounts account now false
    | none =>
      if opts.autoCreate = some false then
        ({ success := false, accountID := none,
           error := some "Account not found and auto-create is disabled",
           isNewAccount := none, account := none }, accounts)
      else
        let account : PAccount :=
          { id := freshId, identifier := some identifierFound.value, roleId := none,
            username := none, passwordHash := none, customPermissions := [],
            isBanned := false, banReason := none, banExpiresAt := none }
        localAuthFinish (accounts ++ [account]) account now true

/-! ## Services-family principal provider

Embeds `LocalPrincipalProvider.getPrincipal`
(src/services/principal/local-principal.provider.ts), which reads the
account joined with its role, auto-recovers expired bans via
`AccountService.unban`, rejects active bans, and otherwise builds the
principal with `combinePermissions`. -/
structure SvcPrincipal where
  id : String
  name : Option String
  rank : Option Int
  permissions : Finset String
  metaAccountId : Nat
  metaRoleId : Option Nat
  metaRoleName : Option String
deriving DecidableEq

inductive AppErr where
  | unauthorized
  | permissionDenied
deriving DecidableEq

/-- Embeds `AccountRepository.findByLinkedIdWithRole(linkedId)`: the
account row with a LEFT JOIN on its role id. -/
def findByLinkedIdWithRole (accounts : List SAccount) (roles : List SRole)
    (linkedId : String) : Option (SAccount × Option SRole) :=
  match accounts.find? (fun a => a.linkedId == some linkedId) with
  | none => none
  | some a => some (a, a.roleId.bind (fun rid => roles.find? (fun r => r.id == rid)))

/-- Embeds `AccountService.unban(accountId)`, which calls
`repo.setBan(accountId, false, null, null)`. -/
def svcUnban (accounts : List SAccount) (id : Nat) : List SAccount :=
  accounts.map (fun a =>
    if a.id == id then { a with banned := false, banReason := none, banExpires := none }
    else a)

/-- Embeds `LocalPrincipalProvider.toPrincipal(account, role)`. -/
def toPrincipal (account : SAccount) (role : Option SRole) : SvcPrincipal :=
  { id := account.linkedId.getD (toString account.id)
    name := role.map SRole.displayName
    rank := role.map SRole.rank
    permissions := combinePermissions (role.map SRole.permissions) account.customPermissions
    metaAccountId := account.id
    metaRoleId := role.map SRole.id
    metaRoleName := role.map SRole.name }

/-- Embeds `LocalPrincipalProvider.getPrincipal(player)`.  Returns the
thrown error or the principal, together with the accounts table after
the call (the only possible write is the expired-ban `unban`). -/
def getPrincipalSvc (accounts : List SAccount) (roles : List SRole)
    (accountID : Option String) (now : Int) :
    Except AppErr SvcPrincipal × List SAccount :=
  match nonEmptyStr accountID with
  | none => (Except.error AppErr.unauthorized, accounts)
  | some linked =>
    match findByLinkedIdWithRole accounts roles linked with
    | none => (Except.error AppErr.unauthorized, accounts)
    | some (account, role) =>
      let expired := isBanExpired account now
      let accounts2 := if expired then svcUnban accounts account.id else accounts
      let account2 := if expired then { account with banned := false } else account
      if account2.banned then
        (Except.error AppErr.permissionDenied, accounts2)
      else
        (Except.ok (toPrincipal account2 role), accounts2)

/-- Modelled from the claim wording for C4 (the three processing
rules): a `-` entry removes its remainder, a `+` entry adds its
remainder with the `+` stripped, and any other entry is added
literally, processing the list in order. -/
def mergeSpecRules (eff : Finset String) : List String → Finset String
  | [] => eff
  | e :: rest =>
    if jsStartsWith e "-" then mergeSpecRules (eff.erase (jsDropOne e)) rest
    else if jsStartsWith e "+" then mergeSpecRules (insert (jsDropOne e) eff) rest
    else mergeSpecRules (insert e eff) rest

/-- Modelled from the amended wording for C4 for the services
implementations: a `-` entry removes its remainder and every other
entry (including `+`-prefixed ones) is added literally. -/
def combineAmendedRules (eff : Finset String) : List String → Finset String
  | [] => eff
  | e :: rest =>
    if jsStartsWith e "-" then combineAmendedRules (eff.erase (jsDropOne e)) rest
    else combineAmendedRules (insert e eff) rest

/-- Concrete fixture role for witnesses. -/
def c7Role : IdentityRole :=
  { id := "user", rank := 0, permissions := ["chat.use"], displayName := some "User" }

/-- Concrete fixture options (static roles mode, TTL 100). -/
def c7Opts : PrincipalOptions :=
  { mode := "roles", roles := [("user", c7Role)], defaultRole := none, cacheTtl := some 100 }

/-- Concrete fixture account. -/
def c7Acct : PAccount :=
  { id := 5, identifier := some "license:abc", roleId := some "user", username := none,
    passwordHash := none, customPermissions := ["admin.view"], isBanned := false,
    banReason := none, banExpiresAt := none }

/-- Concrete fixture account store: only `u1` resolves. -/
def c7Find : String → Option PAccount :=
  fun l => if l == "u1" then some c7Acct else none

/-- The principal the fixture resolves to. -/
def c7P : Principal :=
  { id := "u1", name := "User", rank := 0,
    permissions := mergePermissions ["chat.use"] ["admin.view"], metaAccountId := 5,
    metaRoleId := "user" }

/-! ## C9: ban state hidden behind password verification -/
/-- Two accounts that agree on everything except the ban fields
(`isBanned`, `banReason`, `banExpiresAt`). -/
def banEquivAcc (a b : PAccount) : Prop :=
  a.id = b.id ∧ a.identifier = b.identifier ∧ a.roleId = b.roleId ∧
  a.username = b.username ∧ a.passwordHash = b.passwordHash ∧
  a.customPermissions = b.customPermissions

theorem mergeStep_eq_applyOp (B : Finset String) (e : String) :
    mergeStep B e = applyOp mergeKey B e := by
  unfold mergeStep applyOp mergeKey opAdds
  by_cases h1 : jsStartsWith e "-" <;> by_cases h2 : jsStartsWith e "+" <;> simp [h1, h2]

theorem combineStep_eq_applyOp (B : Finset String) (e : String) :
    combineStep B e = applyOp combineKey B e := by
  unfold combineStep applyOp combineKey opAdds
  by_cases h1 : jsStartsWith e "-" <;> simp [h1]

theorem mem_applyOp (key : String → String) (B : Finset String) (e p : String) :
    p ∈ applyOp key B e ↔ (if key e = p then opAdds e = true else p ∈ B) := by
  unfold applyOp
  by_cases hk : key e = p
  · subst hk
    cases ha : opAdds e
    · simp [ha]
    · simp [ha]
  · cases ha : opAdds e
    · simp [ha, hk, Finset.mem_erase, Ne.symm hk]
    · simp [ha, hk, Finset.mem_insert, Ne.symm hk]

theorem lastOp_cons (key : String → String) (p e : String) (C : List String) :
    lastOp key p (e :: C) =
      match lastOp key p C with
      | some r => some r
      | none => if key e == p then some e else none := rfl

theorem mem_foldl_applyOp (key : String → String) (C : List String) (B : Finset String)
    (p : String) :
    p ∈ C.foldl (applyOp key) B ↔
      (match lastOp key p C with
       | some e => opAdds e = true
       | none => p ∈ B) := by
  induction C generalizing B with
  | nil => simp [lastOp]
  | cons e C ih =>
    rw [List.foldl_cons, ih, lastOp_cons]
    cases hf : lastOp key p C with
    | some r => simp
    | none =>
      by_cases hk : key e = p
      · have hb : (key e == p) = true := by simpa using hk
        simp [hb, mem_applyOp, hk]
      · have hb : (key e == p) = false := by simpa using hk
        simp [hb, mem_applyOp, hk]

theorem mem_mergePermissions (base overrides : List String) (p : String) :
    p ∈ mergePermissions base overrides ↔
      (match lastOp mergeKey p overrides with
       | some e => opAdds e = true
       | none => p ∈ base) := by
  unfold mergePermissions
  have hstep : mergeStep = applyOp mergeKey := by
    funext B e
    exact mergeStep_eq_applyOp B e
  rw [hstep, mem_foldl_applyOp]
  cases lastOp mergeKey p overrides <;> simp

theorem mem_combinePermissions (rolePerms : Option (List String)) (customPerms : List String)
    (p : String) :
    p ∈ combinePermissions rolePerms customPerms ↔
      (match lastOp combineKey p customPerms with
       | some e => opAdds e = true
       | none => p ∈ rolePerms.getD []) := by
  unfold combinePermissions
  have hstep : combineStep = applyOp combineKey := by
    funext B e
    exact combineStep_eq_applyOp B e
  rw [hstep, mem_foldl_applyOp]
  cases lastOp combineKey p customPerms <;> simp

theorem lookup_filter_ne {α : Type} (cache : List (String × MCacheEntry α)) (key : String) :
    (cache.filter (fun kv => kv.1 != key)).lookup key = none := by
  induction cache with
  | nil => rfl
  | cons kv rest ih =>
    obtain ⟨a, b⟩ := kv
    by_cases h : a = key
    · have hb : (a != key) = false := by simpa using h
      simp [List.filter_cons, hb, ih]
    · have hb : (a != key) = true := by simpa using h
      have hk2 : (key == a) = false := by simpa using Ne.symm h
      simp [List.filter_cons, hb, List.lookup, hk2, ih]

theorem lookup_filter_ne_nat {β : Type} (l : List (Nat × β)) (k : Nat) :
    (l.filter (fun kv => kv.1 != k)).lookup k = none := by
  induction l with
  | nil => rfl
  | cons kv rest ih =>
    obtain ⟨a, b⟩ := kv
    by_cases h : a = k
    · have hb : (a != k) = false := by simpa using h
      simp [List.filter_cons, hb, ih]
    · have hb : (a != k) = true := by simpa using h
      have hk2 : (k == a) = false := by simpa using Ne.symm h
      simp [List.filter_cons, hb, List.lookup, hk2, ih]

/-! ## Shared lemmas about the merge folds -/
theorem mergePermissions_eq_applyOp (base overrides : List String) :
    mergePermissions base overrides = overrides.foldl (applyOp mergeKey) base.toFinset := by
  unfold mergePermissions
  rw [show mergeStep = applyOp mergeKey from
    funext fun B => funext fun e => mergeStep_eq_applyOp B e]

theorem combinePermissions_eq_applyOp (rolePerms : Option (List String))
    (customPerms : List String) :
    combinePermissions rolePerms customPerms =
      customPerms.foldl (applyOp combineKey) (rolePerms.getD []).toFinset := by
  unfold combinePermissions
  rw [show combineStep = applyOp combineKey from
    funext fun B => funext fun e => combineStep_eq_applyOp B e]

theorem foldl_applyOp_idem (key : String → String) (C : List String) (B : Finset String) :
    C.foldl (applyOp key) (C.foldl (applyOp key) B) = C.foldl (applyOp key) B := by
  ext p
  rw [mem_foldl_applyOp, mem_foldl_applyOp]
  cases hf : lastOp key p C with
  | some e => simp
  | none => simp [mem_foldl_applyOp, hf]

/-! ## C1: negation precedence in the merge engine -/
/-- C1 counterexample: the claim asserts that a permission negated
anywhere in the custom list is absent from the effective set regardless
of list order.  On the code, for role permissions `a, b` and custom
list `-a, a` (the example used by the specification), the grant that
follows the negation re-adds `a`, so `a` is in the effective set of
both merge implementations, refuting the claim at this input. -/
theorem c1_counterexample :
    ("-a" : String) ∈ (["-a", "a"] : List String) ∧
    "a" ∈ mergePermissions ["a", "b"] ["-a", "a"] ∧
    "a" ∈ combinePermissions (some ["a", "b"]) ["-a", "a"] := by
  refine ⟨by decide, by decide, by decide⟩

/-- C1 amended: both merge implementations process the custom list
positionally.  When some custom entry affects p, p is absent from the
effective set EXACTLY WHEN the last such entry is a negation — so a
grant of p occurring later in the list than the negation re-adds p —
and when no entry affects p its membership equals its membership in
the base set.  Stated for both implementations. -/
theorem c1_amended (base : List String) (rolePerms : Option (List String))
    (overrides customPerms : List String) (p : String) :
    (∀ em, lastOp mergeKey p overrides = some em →
      (p ∉ mergePermissions base overrides ↔ jsStartsWith em "-" = true)) ∧
    (lastOp mergeKey p overrides = none →
      (p ∈ mergePermissions base overrides ↔ p ∈ base)) ∧
    (∀ ec, lastOp combineKey p customPerms = some ec →
      (p ∉ combinePermissions rolePerms customPerms ↔ jsStartsWith ec "-" = true)) ∧
    (lastOp combineKey p customPerms = none →
      (p ∈ combinePermissions rolePerms customPerms ↔ p ∈ rolePerms.getD [])) := by
  refine ⟨?_, ?_, ?_, ?_⟩
  · intro em hm
    rw [show (p ∈ mergePermissions base overrides) = (opAdds em = true) by
      rw [mem_mergePermissions, hm]]
    cases hs : jsStartsWith em "-" <;> simp [opAdds, hs]
  · intro hm
    rw [mem_mergePermissions, hm]
  · intro ec hc
    rw [show (p ∈ combinePermissions rolePerms customPerms) = (opAdds ec = true) by
      rw [mem_combinePermissions, hc]]
    cases hs : jsStartsWith ec "-" <;> simp [opAdds, hs]
  · intro hc
    rw [mem_combinePermissions, hc]

/-- C1 amended witness: for role permissions `a, b`, the custom list
`a, -a` ends with the negation of `a`, so `a` is excluded, while
`-a, a` ends with a grant of `a`, so `a` is re-added — for both
implementations. -/
theorem c1_amended_witness :
    ("a" ∉ mergePermissions ["a", "b"] ["a", "-a"] ∧
     "a" ∈ mergePermissions ["a", "b"] ["-a", "a"]) ∧
    ("a" ∉ combinePermissions (some ["a", "b"]) ["a", "-a"] ∧
     "a" ∈ combinePermissions (some ["a", "b"]) ["-a", "a"]) := by
  have hmerge1 := (c1_amended ["a", "b"] (some ["a", "b"]) ["a", "-a"] ["a", "-a"] "a").1
  have hmerge2 := (c1_amended ["a", "b"] (some ["a", "b"]) ["-a", "a"] ["-a", "a"] "a").1
  have hcomb1 := (c1_amended ["a", "b"] (some ["a", "b"]) ["a", "-a"] ["a", "-a"] "a").2.2.1
  have hcomb2 := (c1_amended ["a", "b"] (some ["a", "b"]) ["-a", "a"] ["-a", "a"] "a").2.2.1
  refine ⟨⟨?_, ?_⟩, ?_, ?_⟩
  · exact (hmerge1 "-a" (by decide)).mpr (by decide)
  · exact Decidable.of_not_not (fun hn =>
      absurd ((hmerge2 "a" (by decide)).mp hn) (by decide))
  · exact (hcomb1 "-a" (by decide)).mpr (by decide)
  · exact Decidable.of_not_not (fun hn =>
      absurd ((hcomb2 "a" (by decide)).mp hn) (by decide))

/-! ## C2: ban policy evaluation -/
/-- C2 counterexample: the claim asserts that with `banned = true` and
`banExpiresAt = now` the account is NOT currently banned (strict
`banExpiresAt > now` is required to be banned).
`CredentialsAuthProvider.isBanned` only unbans when
`banExpiresAt < now`, so at exact equality it still reports the account
as banned, while `AccountService.isBanExpired` already reports the ban
as expired at the same instant. -/
theorem c2_counterexample :
    credentialsIsBanned
      { id := 1, identifier := none, roleId := none, username := none, passwordHash := none,
        customPermissions := [], isBanned := true, banReason := none,
        banExpiresAt := some 1000 } 1000 = true ∧
    isBanExpired
      { id := 1, linkedId := none, username := none, roleId := none,
        customPermissions := [], banned := true, banReason := none,
        banExpires := some 1000 } 1000 = true := by
  refine ⟨by decide, by decide⟩

/-- C2 amended: `CredentialsAuthProvider.isBanned` reports an account
currently banned iff `banned` and (`banExpiresAt` is null or
`now <= banExpiresAt`), so at exact expiry the account is still banned
on that path; `AccountService.isBanExpired` reports expired-ban iff
`banned` and `banExpiresAt` is non-null and `banExpiresAt <= now`, so
at exact expiry that path already treats the ban as expired. -/
theorem c2_amended (a : PAccount) (s : SAccount) (now : Int) :
    (credentialsIsBanned a now = true ↔
      a.isBanned = true ∧
        (a.banExpiresAt = none ∨ ∃ t, a.banExpiresAt = some t ∧ now ≤ t)) ∧
    (isBanExpired s now = true ↔
      s.banned = true ∧ ∃ t, s.banExpires = some t ∧ t ≤ now) := by
  constructor
  · unfold credentialsIsBanned
    cases hb : a.isBanned with
    | false => simp [hb]
    | true =>
      cases he : a.banExpiresAt with
      | none => simp [hb, he]
      | some t =>
        by_cases ht : t < now <;> simp [hb, he, ht] <;> omega
  · unfold isBanExpired
    cases hb : s.banned with
    | false => simp [hb]
    | true =>
      cases he : s.banExpires with
      | none => simp [hb, he]
      | some t => simp [hb, he]

/-! ## C4: merge step semantics -/
/-- C4 counterexample: the claim asserts that every entry starting with
`+` is added with the `+` stripped.  `LocalPrincipalProvider` /
`AccountService.combinePermissions` (both cited by the claim) treat
only `-` specially and add every other entry literally, so the custom
entry `+admin.view` grants the literal string `+admin.view` and not
`admin.view`. -/
theorem c4_counterexample :
    "+admin.view" ∈ combinePermissions none ["+admin.view"] ∧
    "admin.view" ∉ combinePermissions none ["+admin.view"] := by
  refine ⟨by decide, by decide⟩

theorem foldl_mergeStep_eq_rules (C : List String) (B : Finset String) :
    C.foldl mergeStep B = mergeSpecRules B C := by
  induction C generalizing B with
  | nil => rfl
  | cons e rest ih =>
    rw [List.foldl_cons, ih]
    show mergeSpecRules (mergeStep B e) rest = mergeSpecRules B (e :: rest)
    by_cases h1 : jsStartsWith e "-" <;> by_cases h2 : jsStartsWith e "+" <;>
      simp [mergeStep, mergeSpecRules, h1, h2]

theorem foldl_combineStep_eq_rules (C : List String) (B : Finset String) :
    C.foldl combineStep B = combineAmendedRules B C := by
  induction C generalizing B with
  | nil => rfl
  | cons e rest ih =>
    rw [List.foldl_cons, ih]
    show combineAmendedRules (combineStep B e) rest = combineAmendedRules B (e :: rest)
    by_cases h1 : jsStartsWith e "-" <;> simp [combineStep, combineAmendedRules, h1]

/-- C4 amended: `IdentityPrincipalProvider.mergePermissions` follows
the three claimed rules exactly (and the worked example holds, with a
duplicate-free result since the result is a set), while the services
`combinePermissions` implementations follow them only for `-` entries
and add every other entry, `+`-prefixed ones included, literally. -/
theorem c4_amended :
    (∀ (base overrides : List String),
        mergePermissions base overrides = mergeSpecRules base.toFinset overrides) ∧
    mergePermissions ["chat.use"] ["admin.view", "-player.kick"] =
      {"chat.use", "admin.view"} ∧
    (∀ (rolePerms : Option (List String)) (customPerms : List String),
        combinePermissions rolePerms customPerms =
          combineAmendedRules (rolePerms.getD []).toFinset customPerms) := by
  refine ⟨?_, by decide, ?_⟩
  · intro base overrides
    unfold mergePermissions
    exact foldl_mergeStep_eq_rules overrides base.toFinset
  · intro rolePerms customPerms
    unfold combinePermissions
    exact foldl_combineStep_eq_rules customPerms (rolePerms.getD []).toFinset

/-! ## C5: merge idempotence -/
/-- C5 confirmed: re-merging the same custom list into the already
merged effective set changes nothing, for both implementations.  For
`mergePermissions` the merged set is listed (`Array.from`) and fed back
as the base; for `combinePermissions` the re-merge uses any role whose
permission list enumerates the first result. -/
theorem c5_merge_idempotent :
    (∀ (base overrides : List String),
        mergePermissions (mergePermissions base overrides).toList overrides =
          mergePermissions base overrides) ∧
    (∀ (rolePerms : Option (List String)) (customPerms : List String) (r2 : List String),
        r2.toFinset = combinePermissions rolePerms customPerms →
        combinePermissions (some r2) customPerms =
          combinePermissions rolePerms customPerms) := by
  constructor
  · intro base overrides
    rw [mergePermissions_eq_applyOp, mergePermissions_eq_applyOp,
      Finset.toList_toFinset]
    exact foldl_applyOp_idem mergeKey overrides base.toFinset
  · intro rolePerms customPerms r2 h
    rw [combinePermissions_eq_applyOp]
    show customPerms.foldl (applyOp combineKey) ((some r2 : Option (List String)).getD []).toFinset = _
    show customPerms.foldl (applyOp combineKey) r2.toFinset = _
    rw [h, combinePermissions_eq_applyOp]
    exact foldl_applyOp_idem combineKey customPerms (rolePerms.getD []).toFinset

/-- C5 witness: a concrete instance of both idempotence conjuncts. -/
theorem c5_merge_idempotent_witness :
    mergePermissions (mergePermissions ["a"] ["-a", "b"]).toList ["-a", "b"] =
      mergePermissions ["a"] ["-a", "b"] ∧
    combinePermissions (some ["b"]) ["-a", "b"] = combinePermissions (some ["a"]) ["-a", "b"] :=
  ⟨c5_merge_idempotent.1 ["a"] ["-a", "b"],
   c5_merge_idempotent.2 (some ["a"]) ["-a", "b"] ["b"] (by decide)⟩

/-! ## C6: TTL cache lazy expiry -/
/-- C6 counterexample: the claim asserts `get` returns the value only
when `now < expiresAt`, treating the exact-expiry instant as absent.
`MemoryCacheService.get` discards the entry only when
`Date.now() > expiresAt`, so at `now = expiresAt` it still returns the
stored value, refuting the claim at this input. -/
theorem c6_counterexample :
    (mcGet [("k", (⟨42, 1000⟩ : MCacheEntry Nat))] "k" 1000).1 = some 42 := by
  decide

/-- C6 amended: `get(key)` returns the stored value iff an entry is
present and `now <= expiresAt`; a missing key leaves the cache
untouched; a `get` on a present-but-stale entry (`expiresAt < now`)
returns nothing and evicts the entry before returning, so the key is
gone from the cache afterwards. -/
theorem c6_amended :
    (∀ (α : Type) (cache : List (String × MCacheEntry α)) (key : String) (now : Int),
        cache.lookup key = none → mcGet cache key now = (none, cache)) ∧
    (∀ (α : Type) (cache : List (String × MCacheEntry α)) (key : String) (now : Int)
        (e : MCacheEntry α), cache.lookup key = some e → now ≤ e.expiresAt →
          mcGet cache key now = (some e.value, cache)) ∧
    (∀ (α : Type) (cache : List (String × MCacheEntry α)) (key : String) (now : Int)
        (e : MCacheEntry α), cache.lookup key = some e → e.expiresAt < now →
          (mcGet cache key now).1 = none ∧
          ((mcGet cache key now).2).lookup key = none) := by
  refine ⟨?_, ?_, ?_⟩
  · intro α cache key now h
    unfold mcGet
    rw [h]
  · intro α cache key now e h hle
    unfold mcGet
    rw [h]
    simp [not_lt.mpr hle]
  · intro α cache key now e h hlt
    unfold mcGet
    rw [h]
    simp [hlt, lookup_filter_ne]

/-- C6 amended witness: a stale entry is evicted by `get`. -/
theorem c6_amended_witness :
    (mcGet [("k", (⟨42, 1000⟩ : MCacheEntry Nat))] "k" 2000).1 = none ∧
    ((mcGet [("k", (⟨42, 1000⟩ : MCacheEntry Nat))] "k" 2000).2).lookup "k" = none :=
  c6_amended.2.2 Nat [("k", ⟨42, 1000⟩)] "k" 2000 ⟨42, 1000⟩ (by decide) (by decide)

/-! ## C3: ban-expiry recovery -/
theorem mem_setBan (accounts : List PAccount) (id : Nat) (b : Bool) :
    ∀ a ∈ setBan accounts id b, a.id = id → a.isBanned = b := by
  intro a ha hid
  unfold setBan at ha
  rcases List.mem_map.mp ha with ⟨x, hx, rfl⟩
  by_cases h : x.id = id
  · simp [h]
  · have hb : (x.id == id) = false := by simpa using h
    simp [hb] at hid ⊢
    exact absurd hid h

theorem mem_svcUnban (accounts : List SAccount) (id : Nat) :
    ∀ a ∈ svcUnban accounts id, a.id = id → a.banned = false := by
  intro a ha hid
  unfold svcUnban at ha
  rcases List.mem_map.mp ha with ⟨x, hx, rfl⟩
  by_cases h : x.id = id
  · simp [h]
  · have hb : (x.id == id) = false := by simpa using h
    simp [hb] at hid ⊢
    exact absurd hid h

/-- C3 confirmed: for an account that is banned with an expiry strictly
in the past, `LocalAuthProvider.authenticateLocally` issues the unban
write-back `setBan(id, false)` to the store and proceeds to a
successful result with no error, and the store afterwards shows the
account unbanned; likewise `LocalPrincipalProvider.getPrincipal`
unbans via `AccountService.unban` and resolves the principal
successfully, the store afterwards showing `banned = false`. -/
theorem c3_ban_expiry_recovery
    (opts : LocalAuthOptions) (identifiers : List PlayerIdentifier)
    (accounts : List PAccount) (freshId : Nat) (now : Int)
    (idf : PlayerIdentifier) (account : PAccount) (t : Int)
    (saccounts : List SAccount) (roles : List SRole) (linked : String)
    (sa : SAccount) (roleJ : Option SRole) (st now2 : Int)
    (hfind : identifiers.find?
      (fun i => i.idType == jsOrS opts.primaryIdentifier "license") = some idf)
    (hacct : accounts.find? (fun a => a.identifier == some idf.value) = some account)
    (hban : account.isBanned = true)
    (hexp : account.banExpiresAt = some t)
    (hpast : t < now)
    (hlinkne : linked ≠ "")
    (hjoin : findByLinkedIdWithRole saccounts roles linked = some (sa, roleJ))
    (hsban : sa.banned = true)
    (hsexp : sa.banExpires = some st)
    (hspast : st < now2) :
    (authenticateLocally opts identifiers accounts freshId now).1.success = true ∧
    (authenticateLocally opts identifiers accounts freshId now).1.error = none ∧
    (authenticateLocally opts identifiers accounts freshId now).2 =
      setBan accounts account.id false ∧
    (∀ a ∈ (authenticateLocally opts identifiers accounts freshId now).2,
      a.id = account.id → a.isBanned = false) ∧
    (getPrincipalSvc saccounts roles (some linked) now2).1 =
      Except.ok (toPrincipal { sa with banned := false } roleJ) ∧
    (getPrincipalSvc saccounts roles (some linked) now2).2 = svcUnban saccounts sa.id ∧
    (∀ a ∈ (getPrincipalSvc saccounts roles (some linked) now2).2,
      a.id = sa.id → a.banned = false) := by
  have hrun : authenticateLocally opts identifiers accounts freshId now =
      ({ success := true, accountID := some (toString account.id), error := none,
         isNewAccount := some false, account := some account },
       setBan accounts account.id false) := by
    unfold authenticateLocally localAuthFinish
    simp only [hfind, hacct, hban, if_true, hexp]
    simp [hpast]
  have hne : nonEmptyStr (some linked) = some linked := by
    simp [nonEmptyStr, hlinkne]
  have hexp2 : isBanExpired sa now2 = true := by
    unfold isBanExpired
    simp [hsban, hsexp, le_of_lt hspast]
  have hrun2 : getPrincipalSvc saccounts roles (some linked) now2 =
      (Except.ok (toPrincipal { sa with banned := false } roleJ),
       svcUnban saccounts sa.id) := by
    unfold getPrincipalSvc
    simp only [hne, hjoin, hexp2, if_true]
    simp
  refine ⟨by rw [hrun], by rw [hrun], by rw [hrun], ?_, by rw [hrun2], by rw [hrun2], ?_⟩
  · rw [hrun]
    exact mem_setBan accounts account.id false
  · rw [hrun2]
    exact mem_svcUnban saccounts sa.id

/-- C3 witness: a concrete banned account whose ban expired one
millisecond ago authenticates successfully and the store write-back
leaves it unbanned, on both cited paths. -/
theorem c3_ban_expiry_recovery_witness :
    (authenticateLocally ⟨none, none⟩ [⟨"license", "license:abc"⟩]
        [{ id := 7, identifier := some "license:abc", roleId := none, username := none,
           passwordHash := none, customPermissions := [], isBanned := true,
           banReason := none, banExpiresAt := some (-1) }] 99 0).1.success = true ∧
    (authenticateLocally ⟨none, none⟩ [⟨"license", "license:abc"⟩]
        [{ id := 7, identifier := some "license:abc", roleId := none, username := none,
           passwordHash := none, customPermissions := [], isBanned := true,
           banReason := none, banExpiresAt := some (-1) }] 99 0).1.error = none ∧
    (authenticateLocally ⟨none, none⟩ [⟨"license", "license:abc"⟩]
        [{ id := 7, identifier := some "license:abc", roleId := none, username := none,
           passwordHash := none, customPermissions := [], isBanned := true,
           banReason := none, banExpiresAt := some (-1) }] 99 0).2 =
      setBan
        [{ id := 7, identifier := some "license:abc", roleId := none, username := none,
           passwordHash := none, customPermissions := [], isBanned := true,
           banReason := none, banExpiresAt := some (-1) }] 7 false ∧
    (∀ a ∈ (authenticateLocally ⟨none, none⟩ [⟨"license", "license:abc"⟩]
        [{ id := 7, identifier := some "license:abc", roleId := none, username := none,
           passwordHash := none, customPermissions := [], isBanned := true,
           banReason := none, banExpiresAt := some (-1) }] 99 0).2,
      a.id = 7 → a.isBanned = false) ∧
    (getPrincipalSvc
        [{ id := 3, linkedId := some "u", username := none, roleId := none,
           customPermissions := [], banned := true, banReason := none,
           banExpires := some (-5) }] [] (some "u") 0).1 =
      Except.ok (toPrincipal
        { id := 3, linkedId := some "u", username := none, roleId := none,
          customPermissions := [], banned := false, banReason := none,
          banExpires := some (-5) } none) ∧
    (getPrincipalSvc
        [{ id := 3, linkedId := some "u", username := none, roleId := none,
           customPermissions := [], banned := true, banReason := none,
           banExpires := some (-5) }] [] (some "u") 0).2 =
      svcUnban
        [{ id := 3, linkedId := some "u", username := none, roleId := none,
           customPermissions := [], banned := true, banReason := none,
           banExpires := some (-5) }] 3 ∧
    (∀ a ∈ (getPrincipalSvc
        [{ id := 3, linkedId := some "u", username := none, roleId := none,
           customPermissions := [], banned := true, banReason := none,
           banExpires := some (-5) }] [] (some "u") 0).2,
      a.id = 3 → a.banned = false) :=
  c3_ban_expiry_recovery ⟨none, none⟩ [⟨"license", "license:abc"⟩]
    [{ id := 7, identifier := some "license:abc", roleId := none, username := none,
       passwordHash := none, customPermissions := [], isBanned := true,
       banReason := none, banExpiresAt := some (-1) }] 99 0
    ⟨"license", "license:abc"⟩
    { id := 7, identifier := some "license:abc", roleId := none, username := none,
      passwordHash := none, customPermissions := [], isBanned := true,
      banReason := none, banExpiresAt := some (-1) } (-1)
    [{ id := 3, linkedId := some "u", username := none, roleId := none,
       customPermissions := [], banned := true, banReason := none,
       banExpires := some (-5) }] [] "u"
    { id := 3, linkedId := some "u", username := none, roleId := none,
      customPermissions := [], banned := true, banReason := none,
      banExpires := some (-5) } none (-5) 0
    (by decide) (by decide) (by decide) (by decide) (by decide)
    (by decide) (by decide) (by decide) (by decide) (by decide)

/-! ## Shared lemmas about the principal cache shell -/
theorem getPrincipal_hit (opts : PrincipalOptions) (findByLinkedId : String → Option PAccount)
    (rs : Option RoleStoreState) (cache : List (Nat × PCacheEntry)) (clientId : Nat)
    (accountID : Option String) (now : Int) (p : Principal)
    (hhit : cacheHit cache clientId now = some p) :
    getPrincipal opts findByLinkedId rs cache clientId accountID now = (some p, cache, 0) := by
  unfold getPrincipal
  simp only [hhit]

theorem getPrincipal_miss_unauthorized (opts : PrincipalOptions)
    (findByLinkedId : String → Option PAccount) (rs : Option RoleStoreState)
    (cache : List (Nat × PCacheEntry)) (clientId : Nat) (accountID : Option String)
    (now : Int) (hhit : cacheHit cache clientId now = none)
    (haid : nonEmptyStr accountID = none) :
    getPrincipal opts findByLinkedId rs cache clientId accountID now = (none, cache, 0) := by
  unfold getPrincipal
  simp only [hhit, haid]

theorem getPrincipal_miss_resolved (opts : PrincipalOptions)
    (findByLinkedId : String → Option PAccount) (rs : Option RoleStoreState)
    (cache : List (Nat × PCacheEntry)) (clientId : Nat) (accountID : Option String)
    (now : Int) (linkedId : String) (p : Principal) (reads : Nat)
    (hhit : cacheHit cache clientId now = none)
    (haid : nonEmptyStr accountID = some linkedId)
    (hres : resolvePrincipal opts findByLinkedId rs linkedId = (some p, reads)) :
    getPrincipal opts findByLinkedId rs cache clientId accountID now =
      (some p,
       (clientId, ⟨p, now + opts.cacheTtl.getD 300000⟩) ::
         cache.filter (fun kv => kv.1 != clientId),
       reads) := by
  unfold getPrincipal
  simp only [hhit, haid, hres]

theorem getPrincipal_miss_failed (opts : PrincipalOptions)
    (findByLinkedId : String → Option PAccount) (rs : Option RoleStoreState)
    (cache : List (Nat × PCacheEntry)) (clientId : Nat) (accountID : Option String)
    (now : Int) (linkedId : String) (reads : Nat)
    (hhit : cacheHit cache clientId now = none)
    (haid : nonEmptyStr accountID = some linkedId)
    (hres : resolvePrincipal opts findByLinkedId rs linkedId = (none, reads)) :
    getPrincipal opts findByLinkedId rs cache clientId accountID now =
      (none, cache, reads) := by
  unfold getPrincipal
  simp only [hhit, haid, hres]

theorem resolvePrincipal_reads_pos (opts : PrincipalOptions)
    (findByLinkedId : String → Option PAccount) (rs : Option RoleStoreState)
    (linkedId : String) :
    1 ≤ (resolvePrincipal opts findByLinkedId rs linkedId).2 := by
  unfold resolvePrincipal
  cases hf : findByLinkedId linkedId with
  | none => simp
  | some account =>
    dsimp only
    split <;> omega

/-! ## C7: principal cache read-through -/
/-- C7 confirmed: when a non-expired cache entry exists, `getPrincipal`
returns it with zero store reads and an unchanged cache; after a miss
that resolves successfully, a second call strictly within the TTL
window is answered from the cache with zero store reads, while a call
at or after expiry of the stored entry performs exactly the store reads
of a fresh resolution, which is always at least one read. -/
theorem c7_cache_read_through :
    (∀ (opts : PrincipalOptions) (f : String → Option PAccount)
        (rs : Option RoleStoreState) (cache : List (Nat × PCacheEntry)) (clientId : Nat)
        (accountID : Option String) (now : Int) (p : Principal),
        cacheHit cache clientId now = some p →
        getPrincipal opts f rs cache clientId accountID now = (some p, cache, 0)) ∧
    (∀ (opts : PrincipalOptions) (f : String → Option PAccount)
        (rs : Option RoleStoreState) (cache : List (Nat × PCacheEntry)) (clientId : Nat)
        (accountID2 : Option String) (now1 now2 : Int) (linkedId : String) (p : Principal)
        (reads : Nat),
        cacheHit cache clientId now1 = none →
        nonEmptyStr (some linkedId) = some linkedId →
        resolvePrincipal opts f rs linkedId = (some p, reads) →
        now2 < now1 + opts.cacheTtl.getD 300000 →
        getPrincipal opts f rs
          (getPrincipal opts f rs cache clientId (some linkedId) now1).2.1 clientId accountID2
          now2 =
          (some p, (getPrincipal opts f rs cache clientId (some linkedId) now1).2.1, 0)) ∧
    (∀ (opts : PrincipalOptions) (f : String → Option PAccount)
        (rs : Option RoleStoreState) (cache : List (Nat × PCacheEntry)) (clientId : Nat)
        (now1 now2 : Int) (linkedId linkedId2 : String) (p : Principal) (reads : Nat),
        cacheHit cache clientId now1 = none →
        nonEmptyStr (some linkedId) = some linkedId →
        nonEmptyStr (some linkedId2) = some linkedId2 →
        resolvePrincipal opts f rs linkedId = (some p, reads) →
        now1 + opts.cacheTtl.getD 300000 ≤ now2 →
        (getPrincipal opts f rs
            (getPrincipal opts f rs cache clientId (some linkedId) now1).2.1 clientId
            (some linkedId2) now2).2.2 =
          (resolvePrincipal opts f rs linkedId2).2) ∧
    (∀ (opts : PrincipalOptions) (f : String → Option PAccount)
        (rs : Option RoleStoreState) (linkedId : String),
        1 ≤ (resolvePrincipal opts f rs linkedId).2) := by
  refine ⟨?_, ?_, ?_, ?_⟩
  · intro opts f rs cache clientId accountID now p hhit
    exact getPrincipal_hit opts f rs cache clientId accountID now p hhit
  · intro opts f rs cache clientId accountID2 now1 now2 linkedId p reads hhit hlid hres hlt
    rw [getPrincipal_miss_resolved opts f rs cache clientId (some linkedId) now1 linkedId p
      reads hhit hlid hres]
    apply getPrincipal_hit
    unfold cacheHit
    simp [List.lookup, hlt]
  · intro opts f rs cache clientId now1 now2 linkedId linkedId2 p reads hhit hlid hlid2 hres
      hle
    rw [getPrincipal_miss_resolved opts f rs cache clientId (some linkedId) now1 linkedId p
      reads hhit hlid hres]
    have hmiss : cacheHit
        ((clientId, ⟨p, now1 + opts.cacheTtl.getD 300000⟩) ::
          cache.filter (fun kv => kv.1 != clientId)) clientId now2 = none := by
      unfold cacheHit
      simp [List.lookup, not_lt.mpr hle]
    rcases hres2 : resolvePrincipal opts f rs linkedId2 with ⟨res2, reads2⟩
    cases res2 with
    | none =>
      rw [getPrincipal_miss_failed opts f rs _ clientId (some linkedId2) now2 linkedId2
        reads2 hmiss hlid2 hres2]
    | some p2 =>
      rw [getPrincipal_miss_resolved opts f rs _ clientId (some linkedId2) now2 linkedId2 p2
        reads2 hmiss hlid2 hres2]
  · intro opts f rs linkedId
    exact resolvePrincipal_reads_pos opts f rs linkedId

/-- C7 witness: on the concrete fixture, a warm cache answers with zero
store reads; a miss resolves with one read and the repeat call inside
the TTL window is free; at the TTL boundary a fresh resolution with its
one store read happens. -/
theorem c7_cache_read_through_witness :
    getPrincipal c7Opts c7Find none [(9, ⟨c7P, 50⟩)] 9 (some "u1") 10 =
      (some c7P, [(9, ⟨c7P, 50⟩)], 0) ∧
    getPrincipal c7Opts c7Find none
        (getPrincipal c7Opts c7Find none [] 9 (some "u1") 0).2.1 9 (some "u1") 99 =
      (some c7P, (getPrincipal c7Opts c7Find none [] 9 (some "u1") 0).2.1, 0) ∧
    (getPrincipal c7Opts c7Find none
        (getPrincipal c7Opts c7Find none [] 9 (some "u1") 0).2.1 9 (some "u1") 100).2.2 =
      (resolvePrincipal c7Opts c7Find none "u1").2 ∧
    1 ≤ (resolvePrincipal c7Opts c7Find none "u1").2 :=
  ⟨c7_cache_read_through.1 c7Opts c7Find none [(9, ⟨c7P, 50⟩)] 9 (some "u1") 10 c7P
      (by decide),
   c7_cache_read_through.2.1 c7Opts c7Find none [] 9 (some "u1") 0 99 "u1" c7P 1
      (by decide) (by decide) (by decide) (by decide),
   c7_cache_read_through.2.2.1 c7Opts c7Find none [] 9 0 100 "u1" "u1" c7P 1
      (by decide) (by decide) (by decide) (by decide) (by decide),
   c7_cache_read_through.2.2.2 c7Opts c7Find none "u1"⟩

/-! ## C8: credentials provisioning discipline -/
/-- C8 confirmed: `CredentialsAuthProvider.authenticate` performs no
store write at all (its embedding returns no store) and can only
succeed against an account that was already in the store under the
supplied username; `register` on a username for which `findByUsername`
returns an existing account fails with the username-taken error and
returns the store unchanged. -/
theorem c8_provisioning_discipline :
    (∀ (accounts : List PAccount) (usernameArg passwordArg : Option String)
        (verify : String → String → Bool) (now : Int),
        (credAuthenticate accounts usernameArg passwordArg verify now).success = true →
        ∃ u a, nonEmptyStr usernameArg = some u ∧ a ∈ accounts ∧ a.username = some u ∧
          (credAuthenticate accounts usernameArg passwordArg verify now).accountID =
            some (toString a.id) ∧
          (credAuthenticate accounts usernameArg passwordArg verify now).account = some a) ∧
    (∀ (accounts : List PAccount) (usernameArg passwordArg : Option String)
        (hash : String → String) (identifiers : List PlayerIdentifier)
        (defaultRole : IdentityRole) (freshId : Nat) (u p : String) (existing : PAccount),
        nonEmptyStr usernameArg = some u →
        nonEmptyStr passwordArg = some p →
        findByUsername accounts u = some existing →
        credRegister accounts usernameArg passwordArg hash identifiers defaultRole freshId =
          ({ success := false, accountID := none, error := some "Username already taken",
             isNewAccount := none, account := none }, accounts)) := by
  constructor
  · intro accounts usernameArg passwordArg verify now hsucc
    unfold credAuthenticate at hsucc ⊢
    cases hu : nonEmptyStr usernameArg <;> cases hp : nonEmptyStr passwordArg <;>
      simp only [hu, hp] at hsucc ⊢
    case none.none => simp at hsucc
    case none.some => simp at hsucc
    case some.none => simp at hsucc
    case some.some u p =>
      cases hf : findByUsername accounts u with
      | none =>
        simp only [hf] at hsucc
        simp at hsucc
      | some account =>
        simp only [hf] at hsucc ⊢
        cases hph : nonEmptyStr account.passwordHash with
        | none =>
          simp only [hph] at hsucc
          simp at hsucc
        | some hsh =>
          simp only [hph] at hsucc ⊢
          by_cases hv : verify p hsh
          · cases hb : credentialsIsBanned account now with
            | true =>
              simp only [hv, hb, Bool.not_true, if_false, if_true] at hsucc
              simp at hsucc
            | false =>
              simp only [hv, hb, Bool.not_true, if_false] at hsucc ⊢
              have hmem : account ∈ accounts := by
                unfold findByUsername at hf
                exact List.mem_of_find?_eq_some hf
              have huser : account.username = some u := by
                unfold findByUsername at hf
                have := List.find?_some hf
                simpa using this
              exact ⟨u, account, rfl, hmem, huser, rfl, rfl⟩
          · have hv2 : verify p hsh = false := by simpa using hv
            simp only [hv2, Bool.not_false, if_true] at hsucc
            simp at hsucc
  · intro accounts usernameArg passwordArg hash identifiers defaultRole freshId u p
      existing hu hp hf
    unfold credRegister
    simp only [hu, hp, hf]

/-- C8 witness: authenticating on the fixture succeeds against the
pre-existing account, and registering the taken username fails and
leaves the store unchanged. -/
theorem c8_provisioning_discipline_witness :
    (∃ u a,
      nonEmptyStr (some "john") = some u ∧
      a ∈ [{ id := 4, identifier := none, roleId := none, username := some "john",
             passwordHash := some "pw", customPermissions := [], isBanned := false,
             banReason := none, banExpiresAt := none }] ∧ a.username = some u ∧
      (credAuthenticate
        [{ id := 4, identifier := none, roleId := none, username := some "john",
           passwordHash := some "pw", customPermissions := [], isBanned := false,
           banReason := none, banExpiresAt := none }] (some "john") (some "pw")
        (fun pw h => pw == h) 0).accountID = some (toString a.id) ∧
      (credAuthenticate
        [{ id := 4, identifier := none, roleId := none, username := some "john",
           passwordHash := some "pw", customPermissions := [], isBanned := false,
           banReason := none, banExpiresAt := none }] (some "john") (some "pw")
        (fun pw h => pw == h) 0).account = some a) ∧
    credRegister
        [{ id := 4, identifier := none, roleId := none, username := some "john",
           passwordHash := some "pw", customPermissions := [], isBanned := false,
           banReason := none, banExpiresAt := none }] (some "john") (some "other")
        (fun pw => pw) [] c7Role 9 =
      ({ success := false, accountID := none, error := some "Username already taken",
         isNewAccount := none, account := none },
       [{ id := 4, identifier := none, roleId := none, username := some "john",
          passwordHash := some "pw", customPermissions := [], isBanned := false,
          banReason := none, banExpiresAt := none }]) :=
  ⟨c8_provisioning_discipline.1
      [{ id := 4, identifier := none, roleId := none, username := some "john",
         passwordHash := some "pw", customPermissions := [], isBanned := false,
         banReason := none, banExpiresAt := none }] (some "john") (some "pw")
      (fun pw h => pw == h) 0 (by decide),
   c8_provisioning_discipline.2
      [{ id := 4, identifier := none, roleId := none, username := some "john",
         passwordHash := some "pw", customPermissions := [], isBanned := false,
         banReason := none, banExpiresAt := none }] (some "john") (some "other")
      (fun pw => pw) [] c7Role 9 "john" "other"
      { id := 4, identifier := none, roleId := none, username := some "john",
        passwordHash := some "pw", customPermissions := [], isBanned := false,
        banReason := none, banExpiresAt := none }
      (by decide) (by decide) (by decide)⟩

theorem findByUsername_banEquiv {l1 l2 : List PAccount}
    (h : List.Forall₂ banEquivAcc l1 l2) (u : String) :
    (findByUsername l1 u = none ∧ findByUsername l2 u = none) ∨
    (∃ a b, findByUsername l1 u = some a ∧ findByUsername l2 u = some b ∧
      banEquivAcc a b) := by
  induction h with
  | nil => exact Or.inl ⟨rfl, rfl⟩
  | cons hab htail ih =>
    rename_i a b l1t l2t
    have huser : a.username = b.username := hab.2.2.2.1
    by_cases hu : a.username = some u
    · right
      refine ⟨a, b, ?_, ?_, hab⟩
      · have hb1 : (a.username == some u) = true := by simpa using hu
        unfold findByUsername
        simp [List.find?_cons, hb1]
      · have hb2 : (b.username == some u) = true := by
          rw [← huser]
          simpa using hu
        unfold findByUsername
        simp [List.find?_cons, hb2]
    · have hb1 : (a.username == some u) = false := by simpa using hu
      have hb2 : (b.username == some u) = false := by rw [← huser]; exact hb1
      unfold findByUsername at ih ⊢
      rcases ih with ⟨h1, h2⟩ | ⟨x, y, h1, h2, hxy⟩
      · left
        constructor
        · simp [List.find?_cons, hb1, h1]
        · simp [List.find?_cons, hb2, h2]
      · right
        refine ⟨x, y, ?_, ?_, hxy⟩
        · simp [List.find?_cons, hb1, h1]
        · simp [List.find?_cons, hb2, h2]

/-- C9 confirmed: whenever the supplied password fails verification
against the stored hash of the account found under the supplied
username (which covers unknown usernames and missing hashes
vacuously), `CredentialsAuthProvider.authenticate` returns the same
failure over any two stores that differ only in ban fields, and even
over different clock readings: the ban fields are consulted only after
the password has verified. -/
theorem c9_ban_noninterference
    (accounts1 accounts2 : List PAccount) (usernameArg passwordArg : Option String)
    (verify : String → String → Bool) (now1 now2 : Int)
    (hequiv : List.Forall₂ banEquivAcc accounts1 accounts2)
    (hfail : ∀ u a hsh p, nonEmptyStr usernameArg = some u →
      findByUsername accounts1 u = some a →
      nonEmptyStr a.passwordHash = some hsh →
      nonEmptyStr passwordArg = some p → verify p hsh = false) :
    credAuthenticate accounts1 usernameArg passwordArg verify now1 =
      credAuthenticate accounts2 usernameArg passwordArg verify now2 := by
  unfold credAuthenticate
  cases hu : nonEmptyStr usernameArg <;> cases hp : nonEmptyStr passwordArg <;>
    simp only [hu, hp]
  case some.some u p =>
    rcases findByUsername_banEquiv hequiv u with ⟨h1, h2⟩ | ⟨a, b, h1, h2, hab⟩
    · simp only [h1, h2]
    · simp only [h1, h2]
      have hhash : a.passwordHash = b.passwordHash := hab.2.2.2.2.1
      cases hph : nonEmptyStr a.passwordHash with
      | none =>
        have hph2 : nonEmptyStr b.passwordHash = none := by rw [← hhash]; exact hph
        simp only [hph, hph2]
      | some hsh =>
        have hph2 : nonEmptyStr b.passwordHash = some hsh := by rw [← hhash]; exact hph
        have hver : verify p hsh = false := hfail u a hsh p hu h1 hph hp
        simp only [hph, hph2, hver, Bool.not_false, if_true]

/-- C9 witness: a wrong password yields the identical
invalid-credentials failure for a permanently banned copy and an
unbanned copy of the same account, at different times. -/
theorem c9_ban_noninterference_witness :
    credAuthenticate
        [{ id := 4, identifier := none, roleId := none, username := some "john",
           passwordHash := some "secret", customPermissions := [], isBanned := true,
           banReason := some "cheating", banExpiresAt := none }]
        (some "john") (some "pw") (fun pw h => pw == h) 0 =
      credAuthenticate
        [{ id := 4, identifier := none, roleId := none, username := some "john",
           passwordHash := some "secret", customPermissions := [], isBanned := false,
           banReason := none, banExpiresAt := none }]
        (some "john") (some "pw") (fun pw h => pw == h) 555 :=
  c9_ban_noninterference
    [{ id := 4, identifier := none, roleId := none, username := some "john",
       passwordHash := some "secret", customPermissions := [], isBanned := true,
       banReason := some "cheating", banExpiresAt := none }]
    [{ id := 4, identifier := none, roleId := none, username := some "john",
       passwordHash := some "secret", customPermissions := [], isBanned := false,
       banReason := none, banExpiresAt := none }]
    (some "john") (some "pw") (fun pw h => pw == h) 0 555
    (List.Forall₂.cons (by refine ⟨rfl, rfl, rfl, rfl, rfl, rfl⟩) List.Forall₂.nil)
    (by
      intro u a hsh p hu hfind hph hp
      have hu2 : u = "john" := by
        have : nonEmptyStr (some "john") = some "john" := by decide
        rw [this] at hu
        exact (Option.some.inj hu).symm
      subst hu2
      have hfind2 : a =
          { id := 4, identifier := none, roleId := none, username := some "john",
            passwordHash := some "secret", customPermissions := [], isBanned := true,
            banReason := some "cheating", banExpiresAt := none } := by
        have heval : findByUsername
            [{ id := 4, identifier := none, roleId := none, username := some "john",
               passwordHash := some "secret", customPermissions := [], isBanned := true,
               banReason := some "cheating", banExpiresAt := none }] "john" =
            some { id := 4, identifier := none, roleId := none, username := some "john",
                   passwordHash := some "secret", customPermissions := [],
                   isBanned := true, banReason := some "cheating",
                   banExpiresAt := none } := by decide
        rw [heval] at hfind
        exact (Option.some.inj hfind).symm
      subst hfind2
      have hsh2 : hsh = "secret" := by
        have : nonEmptyStr (some "secret") = some "secret" := by decide
        rw [this] at hph
        exact (Option.some.inj hph).symm
      subst hsh2
      have hp2 : p = "pw" := by
        have : nonEmptyStr (some "pw") = some "pw" := by decide
        rw [this] at hp
        exact (Option.some.inj hp).symm
      subst hp2
      decide)

/-! ## C10: the principal cache stores only successful resolutions -/
/-- C10 confirmed: `getPrincipal` (local provider) and the caching
shell of the API provider write the cache only when resolution produced
a principal, and the entry written is exactly that principal; on a
missing linked id or a failed (null) resolution the cache is returned
unchanged, so failures are never negatively cached and are re-attempted
on the next call. -/
theorem c10_no_negative_caching :
    (∀ (opts : PrincipalOptions) (f : String → Option PAccount)
        (rs : Option RoleStoreState) (cache : List (Nat × PCacheEntry)) (clientId : Nat)
        (accountID : Option String) (now : Int),
        cacheHit cache clientId now = none → nonEmptyStr accountID = none →
        getPrincipal opts f rs cache clientId accountID now = (none, cache, 0)) ∧
    (∀ (opts : PrincipalOptions) (f : String → Option PAccount)
        (rs : Option RoleStoreState) (cache : List (Nat × PCacheEntry)) (clientId : Nat)
        (accountID : Option String) (now : Int) (linkedId : String) (reads : Nat),
        cacheHit cache clientId now = none → nonEmptyStr accountID = some linkedId →
        resolvePrincipal opts f rs linkedId = (none, reads) →
        getPrincipal opts f rs cache clientId accountID now = (none, cache, reads)) ∧
    (∀ (opts : PrincipalOptions) (f : String → Option PAccount)
        (rs : Option RoleStoreState) (cache : List (Nat × PCacheEntry)) (clientId : Nat)
        (accountID : Option String) (now : Int) (linkedId : String) (p : Principal)
        (reads : Nat),
        cacheHit cache clientId now = none → nonEmptyStr accountID = some linkedId →
        resolvePrincipal opts f rs linkedId = (some p, reads) →
        getPrincipal opts f rs cache clientId accountID now =
          (some p,
           (clientId, ⟨p, now + opts.cacheTtl.getD 300000⟩) ::
             cache.filter (fun kv => kv.1 != clientId),
           reads)) ∧
    (∀ (cache : List (Nat × PCacheEntry)) (clientId : Nat) (accountID : Option String)
        (now : Int) (ttl : Option Int) (linkedId : String),
        cacheHit cache clientId now = none → nonEmptyStr accountID = some linkedId →
        apiGetPrincipal cache clientId accountID now ttl none = (none, cache)) ∧
    (∀ (cache : List (Nat × PCacheEntry)) (clientId : Nat) (accountID : Option String)
        (now : Int) (ttl : Option Int) (p : Principal) (linkedId : String),
        cacheHit cache clientId now = none → nonEmptyStr accountID = some linkedId →
        apiGetPrincipal cache clientId accountID now ttl (some p) =
          (some p,
           (clientId, ⟨p, now + ttl.getD 300000⟩) ::
             cache.filter (fun kv => kv.1 != clientId))) := by
  refine ⟨?_, ?_, ?_, ?_, ?_⟩
  · intro opts f rs cache clientId accountID now hhit haid
    exact getPrincipal_miss_unauthorized opts f rs cache clientId accountID now hhit haid
  · intro opts f rs cache clientId accountID now linkedId reads hhit haid hres
    exact getPrincipal_miss_failed opts f rs cache clientId accountID now linkedId reads
      hhit haid hres
  · intro opts f rs cache clientId accountID now linkedId p reads hhit haid hres
    exact getPrincipal_miss_resolved opts f rs cache clientId accountID now linkedId p
      reads hhit haid hres
  · intro cache clientId accountID now ttl linkedId hhit haid
    unfold apiGetPrincipal
    simp only [hhit, haid]
  · intro cache clientId accountID now ttl p linkedId hhit haid
    unfold apiGetPrincipal
    simp only [hhit, haid]

/-- C10 witness: on the fixture, an unknown linked id resolves to
nothing and leaves the cache empty, while a failed API fetch likewise
leaves the cache unchanged and a successful one stores exactly the
fetched principal. -/
theorem c10_no_negative_caching_witness :
    getPrincipal c7Opts c7Find none [] 9 (some "zz") 0 = (none, [], 1) ∧
    apiGetPrincipal [] 3 (some "u1") 0 (some 100) none = (none, []) ∧
    apiGetPrincipal [] 3 (some "u1") 0 (some 100) (some c7P) =
      (some c7P, [(3, ⟨c7P, 100⟩)]) :=
  ⟨c10_no_negative_caching.2.1 c7Opts c7Find none [] 9 (some "zz") 0 "zz" 1
      (by decide) (by decide) (by decide),
   c10_no_negative_caching.2.2.2.1 [] 3 (some "u1") 0 (some 100) "u1"
      (by decide) (by decide),
   c10_no_negative_caching.2.2.2.2 [] 3 (some "u1") 0 (some 100) c7P "u1"
      (by decide) (by decide)⟩
